import Mathlib

/-!
Verification of the HTTP prober worker (src/http_prober.ts).

The development shallowly embeds the probe pipeline: probe configuration
defaulting (the HttpProbe class constructor), outbound request construction
(buildRequest), response validation (validateResponse / validateResponseStatus /
validateResponseBody), metric rendering (buildResponse), parameter parsing
(parseParams) and the probe orchestration (doProbe).

Modelling conventions:
- JavaScript regular expressions are observed only through RegExp.test, so a
  pattern is embedded as a function String → Bool.
- JavaScript truthiness matters in several places (the `x || default` idiom in
  the HttpProbe constructor, `Object.keys(...)` used as an if condition) and is
  modelled explicitly where the operand can be falsy.
- The network fetch and the clock are oracles: doProbe takes the outcome of
  fetch (either a delivered response or a transport error) and the two
  Date.now() readings as arguments.  `await` on a rejected fetch promise
  propagates the rejection, which doProbe models with the ProbeOutput.thrown
  constructor (no HTTP response is produced in that case).
- Strings are Lean strings; toLowerCase / startsWith are re-implemented over
  String.data (structural recursion) so that concrete instances evaluate in the
  kernel; they agree with the JavaScript operations on the ASCII inputs the
  worker manipulates.
-/

namespace HttpProber

/-- Model of JavaScript String.prototype.toLowerCase (ASCII case mapping). -/
def jsToLowerCase (s : String) : String := String.mk (s.data.map Char.toLower)

/-- Model of JavaScript String.prototype.startsWith. -/
def jsStartsWith (s p : String) : Bool := p.data.isPrefixOf s.data

/-- JavaScript `x || d` on an optional string: undefined and the empty string
are falsy, any other string is kept. -/
def jsOrString : Option String → String → String
  | none, d => d
  | some s, d => if s = "" then d else s

/-- A JavaScript RegExp, observed through RegExp.test. -/
def Pattern : Type := String → Bool

/-- An allowed_targets entry: `string | RegExp` in the source. -/
inductive StrOrPattern
  | lit (s : String)
  | pat (p : Pattern)

/-- `const enum HttpStatusCodeClass` of the source: five status classes. -/
inductive HttpStatusCodeClass
  | Http_1xx
  | Http_2xx
  | Http_3xx
  | Http_4xx
  | Http_5xx
deriving DecidableEq, Repr

/-- The numeric value TypeScript assigns to each member of the const enum
(declaration order, starting at 0). -/
def HttpStatusCodeClass.enumValue : HttpStatusCodeClass → Nat
  | .Http_1xx => 0
  | .Http_2xx => 1
  | .Http_3xx => 2
  | .Http_4xx => 3
  | .Http_5xx => 4

/-- The `Array<number> | HttpStatusCodeClass` union used for
valid_status_codes. -/
inductive ValidStatusCodes
  | codes (cs : List Nat)
  | cls (c : HttpStatusCodeClass)
deriving DecidableEq

/-- JavaScript truthiness of a valid_status_codes value: an array is always
truthy (even when empty), a const-enum member is its numeric value, so only
the member with value 0 (Http_1xx) is falsy. -/
def ValidStatusCodes.isFalsy : ValidStatusCodes → Bool
  | .codes _ => false
  | .cls c => c.enumValue == 0

/-- `config.valid_status_codes || HttpStatusCodeClass.Http_2xx` of the
constructor: undefined or a falsy value yields the 2xx default. -/
def vscOrDefault : Option ValidStatusCodes → ValidStatusCodes
  | none => .cls .Http_2xx
  | some v => if v.isFalsy then .cls .Http_2xx else v

/-- The raw HttpProbeConfig interface: every field optional. -/
structure HttpProbeConfig where
  method : Option String := none
  headers : Option (List (String × String)) := none
  body : Option String := none
  no_follow_redirects : Option Bool := none
  allowed_targets : Option (List StrOrPattern) := none
  valid_status_codes : Option ValidStatusCodes := none
  fail_if_matches_regexp : Option (List Pattern) := none
  fail_if_not_matches_regexp : Option (List Pattern) := none

/-- The defaulted HttpProbe class. -/
structure HttpProbe where
  method : String
  headers : List (String × String)
  body : String
  noFollowRedirects : Bool
  allowedTargets : List StrOrPattern
  validStatusCodes : ValidStatusCodes
  failIfMatchesRegexp : List Pattern
  failIfNotMatchesRegexp : List Pattern

/-- The HttpProbe class constructor.  Each field is `config.x || default`;
the `|| default` is modelled with JavaScript truthiness: objects and arrays
are always truthy (headers, allowed_targets and the two pattern lists keep
even empty values), strings are falsy only when empty, and for
valid_status_codes only the const-enum member with numeric value 0 is falsy. -/
def HttpProbe.ofConfig (config : HttpProbeConfig) : HttpProbe :=
  { method := jsOrString config.method "GET"
    headers := config.headers.getD []
    body := jsOrString config.body ""
    noFollowRedirects := config.no_follow_redirects.getD false
    allowedTargets := config.allowed_targets.getD []
    validStatusCodes := vscOrDefault config.valid_status_codes
    failIfMatchesRegexp := config.fail_if_matches_regexp.getD []
    failIfNotMatchesRegexp := config.fail_if_not_matches_regexp.getD [] }

/-- The isEqualOrMatched helper: a RegExp entry is tested against the string,
any other entry is compared with strict equality. -/
def isEqualOrMatched (s : String) : StrOrPattern → Bool
  | .pat p => p s
  | .lit t => t == s

/-- The RequestInit options object assembled by buildRequest; headers and body
are recorded as present-or-absent, matching the conditional property
assignments of the source. -/
structure RequestOptions where
  method : String
  redirect : String
  headers : Option (List (String × String)) := none
  body : Option String := none
deriving DecidableEq, Repr

/-- The outbound `new Request(url, options)` value. -/
structure BuiltRequest where
  url : String
  options : RequestOptions
deriving DecidableEq, Repr

/-- `Object.keys` of a header map. -/
def objectKeys (h : List (String × String)) : List String := h.map Prod.fst

/-- JavaScript truthiness of an array value: arrays are objects and are always
truthy, whatever their length.  (The source guards the headers assignment with
`if (Object.keys(probe.headers))`, which is therefore always taken.) -/
def jsTruthyArray (_l : List String) : Bool := true

/-- buildRequest: validates body/method, target scheme and the allow list, in
that order, then assembles the outbound request. -/
def buildRequest (probe : HttpProbe) (target : String) : Except String BuiltRequest :=
  if probe.body != "" && (probe.method == "GET" || probe.method == "HEAD") then
    .error "body is not allowed for GET or HEAD request"
  else
    let normTarget := jsToLowerCase target
    if !(jsStartsWith normTarget "http://") && !(jsStartsWith normTarget "https://") then
      .error ("target must start with either http:// or https://: " ++ normTarget)
    else if !probe.allowedTargets.isEmpty
        && !(probe.allowedTargets.any (isEqualOrMatched normTarget)) then
      .error ("target is not allowed in probe config: " ++ normTarget)
    else
      let options : RequestOptions :=
        { method := probe.method
          redirect := if probe.noFollowRedirects then "manual" else "follow" }
      let options :=
        if jsTruthyArray (objectKeys probe.headers) then
          { options with headers := some probe.headers }
        else options
      let options :=
        if probe.body != "" then { options with body := some probe.body } else options
      .ok { url := normTarget, options := options }

/-- A received fetch response: status, redirect flag, headers and the text the
body stream delivers. -/
structure Response where
  status : Nat
  redirected : Bool
  headers : List (String × String)
  bodyText : String
deriving DecidableEq, Repr

/-- Headers.get: header names are case-insensitive. -/
def headersGet (hs : List (String × String)) (name : String) : Option String :=
  (hs.find? fun kv => jsToLowerCase kv.1 == jsToLowerCase name).map Prod.snd

/-- validateResponseStatus: the switch over the status-code class, with the
includes test of the default branch for explicit code lists. -/
def validateResponseStatus (status : Nat) (validStatus : ValidStatusCodes) : Bool :=
  match validStatus with
  | .cls .Http_1xx => if status < 100 ∨ status ≥ 200 then false else true
  | .cls .Http_2xx => if status < 200 ∨ status ≥ 300 then false else true
  | .cls .Http_3xx => if status < 300 ∨ status ≥ 400 then false else true
  | .cls .Http_4xx => if status < 400 ∨ status ≥ 500 then false else true
  | .cls .Http_5xx => if status < 500 ∨ status ≥ 600 then false else true
  | .codes cs => if !(cs.contains status) then false else true

/-- validateResponseBody: fail on the first fail_if_matches_regexp match, then
on the first fail_if_not_matches_regexp non-match, otherwise succeed. -/
def validateResponseBody (text : String) (probe : HttpProbe) : Bool :=
  if probe.failIfMatchesRegexp.any (fun r => r text) then false
  else if probe.failIfNotMatchesRegexp.any (fun r => !(r text)) then false
  else true

/-- validateResponse, instrumented: the first component is the boolean the
source returns, the second records whether the response body stream was read
(`await resp.text()`), the one effect the function can have.  The body is read
only when the status stage passes and no body was already supplied. -/
def validateResponseT (probe : HttpProbe) (resp : Response) (body : Option String) :
    Bool × Bool :=
  if !(validateResponseStatus resp.status probe.validStatusCodes) then (false, false)
  else
    match body with
    | none => (validateResponseBody resp.bodyText probe, true)
    | some b => (validateResponseBody b probe, false)

/-- validateResponse as in the source (body defaults to null). -/
def validateResponse (probe : HttpProbe) (resp : Response)
    (body : Option String := none) : Bool :=
  (validateResponseT probe resp body).1

/-- A JavaScript number as the pipeline produces it: an integer, the quotient
ms/1000 of a millisecond count (the duration metric), or NaN (what parseInt
returns on unparsable input). -/
inductive JsNum
  | int : Int → JsNum
  | mdiv : Int → JsNum
  | nan : JsNum
deriving DecidableEq, Repr

/-- Pad a value below 1000 to three decimal digits. -/
def natPad3 (n : Nat) : String :=
  if n < 10 then "00" ++ toString n
  else if n < 100 then "0" ++ toString n
  else toString n

/-- Drop trailing zero characters. -/
def stripZeros (cs : List Char) : List Char :=
  (cs.reverse.dropWhile fun c => c == '0').reverse

/-- Decimal rendering of the JavaScript number ms/1000, as string
interpolation prints it. -/
def mdivRender (ms : Int) : String :=
  let a := ms.natAbs
  let sign := if ms < 0 then "-" else ""
  if a % 1000 == 0 then sign ++ toString (a / 1000)
  else sign ++ toString (a / 1000) ++ "." ++ String.mk (stripZeros (natPad3 (a % 1000)).data)

/-- String interpolation of a JsNum. -/
def JsNum.render : JsNum → String
  | .int i => toString i
  | .mdiv ms => mdivRender ms
  | .nan => "NaN"

/-- Accumulating decimal digit evaluation. -/
def digitsToNat (acc : Nat) : List Char → Nat
  | [] => acc
  | c :: cs => digitsToNat (acc * 10 + (c.toNat - 48)) cs

/-- Leading decimal digits of a character list as a JavaScript number:
NaN when there is no leading digit. -/
def parseDigits (cs : List Char) : JsNum :=
  let ds := cs.takeWhile Char.isDigit
  if ds.isEmpty then .nan else .int (digitsToNat 0 ds)

/-- Model of JavaScript parseInt with an unspecified radix on decimal input:
leading whitespace is skipped, an optional sign is honoured, the longest
leading digit run is the value and NaN results when there is none.  (The
hexadecimal 0x-prefix form of parseInt is not modelled; nothing in the worker
relies on it.) -/
def jsParseInt (s : String) : JsNum :=
  match s.data.dropWhile Char.isWhitespace with
  | '-' :: rest =>
    match parseDigits rest with
    | .int n => .int (-n)
    | _ => .nan
  | '+' :: rest => parseDigits rest
  | cs => parseDigits cs

/-- The content-length extraction of doProbe:
`parseInt(resp.headers.get('content-length') || '-1')`. -/
def responseContentLength (resp : Response) : JsNum :=
  jsParseInt (jsOrString (headersGet resp.headers "content-length") "-1")

/-- The ProbeResult record assembled by doProbe. -/
structure ProbeResult where
  probe_success : Bool
  probe_duration_seconds : JsNum
  probe_http_status_code : JsNum
  probe_http_redirected : Bool
  probe_http_content_length : JsNum
deriving DecidableEq, Repr

/-- A worker Response value delivered to the caller. -/
structure WorkerResponse where
  body : String
  status : Nat := 200
  statusText : String := ""
deriving DecidableEq, Repr

/-- errorResponse: wraps a message in `error: <msg>\n` with the given status
(400 by default). -/
def errorResponse (msg : String) (status : Nat := 400) : WorkerResponse :=
  { body := "error: " ++ msg ++ "\n", status := status, statusText := "Bad Request" }

/-- buildResponse: the Prometheus exposition template literal of the source,
five metric lines followed by the closing indentation of the template. -/
def buildResponse (r : ProbeResult) : WorkerResponse :=
  { body :=
      "probe_success " ++ (if r.probe_success then "1" else "0") ++
      "\nprobe_duration_seconds " ++ r.probe_duration_seconds.render ++
      "\nprobe_http_status_code " ++ r.probe_http_status_code.render ++
      "\nprobe_http_redirected " ++ (if r.probe_http_redirected then "1" else "0") ++
      "\nprobe_http_content_length " ++ r.probe_http_content_length.render ++
      "\n    " }

/-- A transport-level fetch failure (DNS error, connection refused, timeout). -/
structure TransportError where
  message : String
deriving DecidableEq, Repr

/-- What doProbe delivers: an HTTP response, or a rejected promise (the
`await fetch(req)` with no surrounding try/catch re-throws the transport
error, so no response is produced). -/
inductive ProbeOutput
  | response : WorkerResponse → ProbeOutput
  | thrown : TransportError → ProbeOutput
deriving DecidableEq, Repr

/-- Whether a probe output is an HTTP response (rather than an exception). -/
def ProbeOutput.isResponse : ProbeOutput → Bool
  | .response _ => true
  | .thrown _ => false

/-- doProbe: build the request (short-circuiting to an error response on
failure), fetch it, read the body, validate, extract the content length and
render the metrics.  The fetch outcome and the two Date.now() readings are
oracle arguments. -/
def doProbe (config : HttpProbeConfig) (target : String)
    (fetchResult : Except TransportError Response) (before after : Int) : ProbeOutput :=
  let probe := HttpProbe.ofConfig config
  match buildRequest probe target with
  | .error err => .response (errorResponse err)
  | .ok _req =>
    match fetchResult with
    | .error e => .thrown e
    | .ok resp =>
      let body := resp.bodyText
      let success := validateResponse probe resp (some body)
      let contentLength := responseContentLength resp
      let probeResult : ProbeResult :=
        { probe_success := success
          probe_duration_seconds := .mdiv (after - before)
          probe_http_status_code := .int (resp.status : Int)
          probe_http_redirected := resp.redirected
          probe_http_content_length := contentLength }
      .response (buildResponse probeResult)

/-- The inbound worker request, reduced to what parseParams consumes: the
query parameters of its URL (ordered key/value pairs). -/
structure InboundRequest where
  searchParams : List (String × String)

/-- The RequestParam record. -/
structure RequestParam where
  module : String
  target : String
deriving DecidableEq, Repr

/-- URLSearchParams.has. -/
def searchParamsHas (ps : List (String × String)) (k : String) : Bool :=
  ps.any fun kv => kv.1 == k

/-- URLSearchParams.get: the first value for the key, or null. -/
def searchParamsGet (ps : List (String × String)) (k : String) : Option String :=
  (ps.find? fun kv => kv.1 == k).map Prod.snd

/-- parseParams: module checked first, then target, then both values are
returned (each passed through `|| ''`). -/
def parseParams (r : InboundRequest) : Except String RequestParam :=
  if !(searchParamsHas r.searchParams "module") then
    .error "module parameter is missing"
  else if !(searchParamsHas r.searchParams "target") then
    .error "target parameter is missing"
  else
    .ok { module := jsOrString (searchParamsGet r.searchParams "module") ""
          target := jsOrString (searchParamsGet r.searchParams "target") "" }

/-- The spec-side reading of an allow-list entry: a literal entry accepts
exactly the equal string, a pattern entry accepts what it matches. -/
def entryAccepts (t : String) : StrOrPattern → Prop
  | .lit s => s = t
  | .pat p => p t = true

instance (t : String) (e : StrOrPattern) : Decidable (entryAccepts t e) :=
  match e with
  | .lit s => inferInstanceAs (Decidable (s = t))
  | .pat p => inferInstanceAs (Decidable (p t = true))

instance (l : List StrOrPattern) : Decidable (l = []) :=
  match l with
  | [] => isTrue rfl
  | _ :: _ => isFalse (by simp)

/-! ### Helper lemmas -/

theorem searchParamsHas_eq (ps : List (String × String)) (k : String) :
    searchParamsHas ps k = (searchParamsGet ps k).isSome := by
  induction ps with
  | nil => rfl
  | cons a l ih =>
    by_cases h : (a.1 == k) = true
    · simp [searchParamsHas, searchParamsGet, List.any_cons, List.find?_cons, h]
    · simp only [searchParamsHas, searchParamsGet, List.any_cons, List.find?_cons, h,
        Bool.false_or, if_false] at *
      simpa [searchParamsHas, searchParamsGet] using ih

theorem jsOrString_some_self (s : String) : jsOrString (some s) "" = s := by
  by_cases h : s = "" <;> simp [jsOrString, h]

theorem all_bnot_eq_bnot_any (l : List Pattern) (t : String) :
    (l.all fun r => !(r t)) = !(l.any fun r => r t) := by
  induction l with
  | nil => rfl
  | cons a l ih => simp [List.all_cons, List.any_cons, ih]

theorem all_eq_bnot_any_bnot (l : List Pattern) (t : String) :
    (l.all fun r => r t) = !(l.any fun r => !(r t)) := by
  induction l with
  | nil => rfl
  | cons a l ih => simp [List.all_cons, List.any_cons, ih]

theorem validateResponseBody_eq (text : String) (probe : HttpProbe) :
    validateResponseBody text probe =
      ((probe.failIfMatchesRegexp.all fun r => !(r text))
        && (probe.failIfNotMatchesRegexp.all fun r => r text)) := by
  by_cases h1 : (probe.failIfMatchesRegexp.any fun r => r text) = true
  · simp [validateResponseBody, h1, all_bnot_eq_bnot_any]
  · by_cases h2 : (probe.failIfNotMatchesRegexp.any fun r => !(r text)) = true
    · simp [validateResponseBody, h1, h2, all_bnot_eq_bnot_any, all_eq_bnot_any_bnot]
    · simp [validateResponseBody, h1, h2, all_bnot_eq_bnot_any, all_eq_bnot_any_bnot]

theorem entryAccepts_iff (t : String) (e : StrOrPattern) :
    entryAccepts t e ↔ isEqualOrMatched t e = true := by
  cases e <;> simp [entryAccepts, isEqualOrMatched]

theorem msg_body_ne_scheme (s : String) :
    "body is not allowed for GET or HEAD request"
      ≠ "target must start with either http:// or https://: " ++ s := by
  intro h
  have h1 : ("body is not allowed for GET or HEAD request").data.head? = some 'b' := rfl
  rw [h] at h1
  have h2 : (("target must start with either http:// or https://: " ++ s)).data.head?
      = some 't' := rfl
  rw [h2] at h1
  simp at h1

theorem msg_body_ne_allowed (s : String) :
    "body is not allowed for GET or HEAD request"
      ≠ "target is not allowed in probe config: " ++ s := by
  intro h
  have h1 : ("body is not allowed for GET or HEAD request").data.head? = some 'b' := rfl
  rw [h] at h1
  have h2 : (("target is not allowed in probe config: " ++ s)).data.head? = some 't' := rfl
  rw [h2] at h1
  simp at h1

theorem msg_scheme_ne_allowed (s t : String) :
    "target must start with either http:// or https://: " ++ s
      ≠ "target is not allowed in probe config: " ++ t := by
  intro h
  have h1 : (("target must start with either http:// or https://: " ++ s)).data.get? 7
      = some 'm' := rfl
  rw [h] at h1
  have h2 : (("target is not allowed in probe config: " ++ t)).data.get? 7 = some 'i' := rfl
  rw [h2] at h1
  simp at h1

theorem isOk_ne_error {ε α : Type} (e : Except ε α) (h : e.isOk = true) :
    ∀ m : ε, e ≠ .error m := by
  intro m
  cases e with
  | error x => simp [Except.isOk, Except.toBool] at h
  | ok x => intro hc; cases hc

/-! ### Claims -/

/-- C5: parseParams fails with "module parameter is missing" whenever the
module query parameter is absent (target checked only afterwards), fails with
"target parameter is missing" when module is present but target absent, and
otherwise returns both parameter values verbatim. -/
theorem parseParams_spec (r : InboundRequest) :
    (searchParamsHas r.searchParams "module" = false →
      parseParams r = .error "module parameter is missing")
  ∧ (searchParamsHas r.searchParams "module" = true →
      searchParamsHas r.searchParams "target" = false →
      parseParams r = .error "target parameter is missing")
  ∧ (∀ vm vt : String, searchParamsGet r.searchParams "module" = some vm →
      searchParamsGet r.searchParams "target" = some vt →
      parseParams r = .ok { module := vm, target := vt }) := by
  refine ⟨fun h => ?_, fun h1 h2 => ?_, fun vm vt hm ht => ?_⟩
  · simp [parseParams, h]
  · simp [parseParams, h1, h2]
  · have h1 : searchParamsHas r.searchParams "module" = true := by
      rw [searchParamsHas_eq, hm]; rfl
    have h2 : searchParamsHas r.searchParams "target" = true := by
      rw [searchParamsHas_eq, ht]; rfl
    simp [parseParams, h1, h2, hm, ht, jsOrString_some_self]

/-- Witness for C5 at concrete requests: both parameters missing reports the
module error; both present returns the values. -/
theorem parseParams_spec_w :
    parseParams { searchParams := [] } = .error "module parameter is missing"
  ∧ parseParams { searchParams := [("module", "http_get_2xx"), ("target", "http://example.com")] }
      = .ok { module := "http_get_2xx", target := "http://example.com" } :=
  ⟨(parseParams_spec _).1 rfl,
   (parseParams_spec _).2.2 "http_get_2xx" "http://example.com" rfl rfl⟩

/-- C10: a configured empty valid_status_codes list is kept by the constructor
(an empty array is truthy, so the 2xx default does not replace it) and the
status stage then rejects every status, so such a probe never succeeds. -/
theorem emptyStatusCodes_never_succeeds (config : HttpProbeConfig)
    (h : config.valid_status_codes = some (.codes [])) :
    (HttpProbe.ofConfig config).validStatusCodes = .codes []
  ∧ ∀ (resp : Response) (body : Option String),
      validateResponse (HttpProbe.ofConfig config) resp body = false := by
  have hv : (HttpProbe.ofConfig config).validStatusCodes = .codes [] := by
    simp [HttpProbe.ofConfig, h, vscOrDefault, ValidStatusCodes.isFalsy]
  refine ⟨hv, fun resp body => ?_⟩
  simp [validateResponse, validateResponseT, hv, validateResponseStatus]

/-- Witness for C10 at a concrete config and a 200 response. -/
theorem emptyStatusCodes_never_succeeds_w :
    (HttpProbe.ofConfig { valid_status_codes := some (.codes []) }).validStatusCodes = .codes []
  ∧ validateResponse (HttpProbe.ofConfig { valid_status_codes := some (.codes []) })
      { status := 200, redirected := false, headers := [], bodyText := "ok" } (some "ok")
      = false := by
  have h := emptyStatusCodes_never_succeeds { valid_status_codes := some (.codes []) } rfl
  exact ⟨h.1, h.2 _ (some "ok")⟩

/-- C2: evaluation at the failing input.  A configuration that explicitly
selects the 1xx status class loses it at construction: the const enum member
Http_1xx has numeric value 0, which is falsy, so
`config.valid_status_codes || Http_2xx` replaces it with the 2xx default.
The probe built from it therefore rejects status 150 (which lies in [100,200))
and accepts 200, while validateResponseStatus applied to the 1xx class itself
accepts 150. -/
theorem statusClass_1xx_lost_at_construction :
    (HttpProbe.ofConfig { valid_status_codes := some (.cls .Http_1xx) }).validStatusCodes
      = .cls .Http_2xx
  ∧ validateResponseStatus 150
      (HttpProbe.ofConfig { valid_status_codes := some (.cls .Http_1xx) }).validStatusCodes
      = false
  ∧ validateResponseStatus 200
      (HttpProbe.ofConfig { valid_status_codes := some (.cls .Http_1xx) }).validStatusCodes
      = true
  ∧ validateResponseStatus 150 (.cls .Http_1xx) = true
  ∧ (100 ≤ 150 ∧ 150 < 200) := by
  refine ⟨rfl, by decide, by decide, by decide, by decide⟩

/-- C9: the rendered metrics body is exactly the five metric lines in fixed
order (probe_success, probe_duration_seconds, probe_http_status_code,
probe_http_redirected, probe_http_content_length), booleans rendered as 1/0,
followed by the closing indentation of the template literal — for every
outcome, successful or failed. -/
theorem buildResponse_fixed_format (r : ProbeResult) :
    (buildResponse r).body =
      String.intercalate "\n"
        [ "probe_success " ++ (if r.probe_success then "1" else "0")
        , "probe_duration_seconds " ++ r.probe_duration_seconds.render
        , "probe_http_status_code " ++ r.probe_http_status_code.render
        , "probe_http_redirected " ++ (if r.probe_http_redirected then "1" else "0")
        , "probe_http_content_length " ++ r.probe_http_content_length.render
        , "    " ] := by
  apply String.ext
  simp [buildResponse, String.intercalate, String.intercalate.go, String.data_append,
    List.append_assoc]

/-- C3: response validation is a two-stage AND.  When the status stage fails
the overall result is false and the response body is not read (second
component false); when it passes, the result is exactly "no fail_if_matches
pattern matches the body and every fail_if_not_matches pattern matches it",
the body being the supplied one or else the response text; and with only
default criteria a bare 2xx status is sufficient for success. -/
theorem validateResponse_two_stage (probe : HttpProbe) (resp : Response)
    (body : Option String) :
    (validateResponseStatus resp.status probe.validStatusCodes = false →
        validateResponseT probe resp body = (false, false))
  ∧ (validateResponseStatus resp.status probe.validStatusCodes = true →
        validateResponse probe resp body =
          ((probe.failIfMatchesRegexp.all fun r => !(r (body.getD resp.bodyText)))
            && (probe.failIfNotMatchesRegexp.all fun r => r (body.getD resp.bodyText))))
  ∧ (200 ≤ resp.status → resp.status < 300 →
        validateResponse (HttpProbe.ofConfig {}) resp body = true) := by
  refine ⟨fun h => ?_, fun h => ?_, fun h1 h2 => ?_⟩
  · simp [validateResponseT, h]
  · cases body with
    | none => simp [validateResponse, validateResponseT, h, validateResponseBody_eq]
    | some b => simp [validateResponse, validateResponseT, h, validateResponseBody_eq]
  · have hs : validateResponseStatus resp.status (vscOrDefault none) = true := by
      simp only [vscOrDefault, validateResponseStatus]
      rw [if_neg (by omega : ¬(resp.status < 200 ∨ resp.status ≥ 300))]
    cases body with
    | none =>
      simp [validateResponse, validateResponseT, hs, validateResponseBody,
        HttpProbe.ofConfig]
    | some b =>
      simp [validateResponse, validateResponseT, hs, validateResponseBody,
        HttpProbe.ofConfig]

/-- Witness for C3: a probe accepting only 204 fails a 400 response without
reading its body, and the default probe succeeds on a bare 201. -/
theorem validateResponse_two_stage_w :
    validateResponseT (HttpProbe.ofConfig { valid_status_codes := some (.codes [204]) })
      { status := 400, redirected := false, headers := [], bodyText := "ok" } none
      = (false, false)
  ∧ validateResponse (HttpProbe.ofConfig {})
      { status := 201, redirected := false, headers := [], bodyText := "whatever" } none
      = true :=
  ⟨(validateResponse_two_stage _ _ none).1 (by decide),
   (validateResponse_two_stage (HttpProbe.ofConfig {}) _ none).2.2 (by decide) (by decide)⟩

/-- C1 counterexample: for a probe whose request construction succeeds, a
transport error on the fetch makes doProbe re-throw it — the output is not a
metrics (or any HTTP) response, contradicting the claim that a metrics
response with probe_success 0 is still rendered. -/
theorem doProbe_transport_error_cex :
    (buildRequest (HttpProbe.ofConfig {}) "http://example.com").isOk = true
  ∧ doProbe {} "http://example.com" (.error { message := "dns error" }) 0 5
      = .thrown { message := "dns error" }
  ∧ (doProbe {} "http://example.com" (.error { message := "dns error" }) 0 5).isResponse
      = false :=
  ⟨rfl, rfl, rfl⟩

/-- C1 (amended): when the outbound request was built successfully and the
fetch fails with a transport error, doProbe propagates the error (the awaited
rejection is re-thrown) instead of rendering a metrics response. -/
theorem doProbe_transport_error_propagates (config : HttpProbeConfig) (target : String)
    (e : TransportError) (before after : Int)
    (h : (buildRequest (HttpProbe.ofConfig config) target).isOk = true) :
    doProbe config target (.error e) before after = .thrown e := by
  cases hb : buildRequest (HttpProbe.ofConfig config) target with
  | error err => rw [hb] at h; simp [Except.isOk, Except.toBool] at h
  | ok req => simp [doProbe, hb]

/-- Witness for C1's amended theorem at a concrete probe and target. -/
theorem doProbe_transport_error_propagates_w :
    doProbe {} "http://example.com" (.error { message := "connection refused" }) 0 5
      = .thrown { message := "connection refused" } :=
  doProbe_transport_error_propagates {} "http://example.com" _ 0 5 rfl

/-- C6 counterexample: with an empty configured header map the constructed
request still carries a headers object (an empty one): the source's guard
`if (Object.keys(probe.headers))` tests an array, which is always truthy, so
headers are not set "only if the map is non-empty". -/
theorem buildRequest_headers_always_set_cex :
    Except.map (fun r => r.options.headers)
        (buildRequest (HttpProbe.ofConfig {}) "http://example.com")
      = .ok (some [])
  ∧ (HttpProbe.ofConfig {}).headers = ([] : List (String × String))
  ∧ some ([] : List (String × String)) ≠ none :=
  ⟨rfl, rfl, by decide⟩

/-- C6 (amended): every successfully built request uses the probe's method,
redirect policy follow unless redirect-following is disabled (then manual),
headers always set to the probe's header map (the emptiness guard in the
source is vacuously true; an empty map contributes an empty header set, which
is observationally equivalent to no headers), and a body only when the
configured body is non-empty. -/
theorem buildRequest_options_spec (probe : HttpProbe) (target : String)
    (req : BuiltRequest) (h : buildRequest probe target = .ok req) :
    req.options.method = probe.method
  ∧ req.options.redirect = (if probe.noFollowRedirects then "manual" else "follow")
  ∧ req.options.headers = some probe.headers
  ∧ req.options.body = (if probe.body = "" then none else some probe.body) := by
  simp only [buildRequest] at h
  split at h
  · simp at h
  · split at h
    · simp at h
    · split at h
      · simp at h
      · injection h with h
        subst h
        by_cases hb : probe.body = "" <;> simp [jsTruthyArray, hb, bne_iff_ne]

/-- Witness for C6's amended theorem: a POST probe with a header and a body. -/
theorem buildRequest_options_spec_w :
    ({ method := "POST",
       redirect := "follow",
       headers := some [("Content-Type", "application/json")],
       body := some "\x7b\x7d" } : RequestOptions).method
      = (HttpProbe.ofConfig
          { method := some "POST",
            headers := some [("Content-Type", "application/json")],
            body := some "\x7b\x7d" }).method
  ∧ ({ method := "POST",
       redirect := "follow",
       headers := some [("Content-Type", "application/json")],
       body := some "\x7b\x7d" } : RequestOptions).headers
      = some (HttpProbe.ofConfig
          { method := some "POST",
            headers := some [("Content-Type", "application/json")],
            body := some "\x7b\x7d" }).headers := by
  have h := buildRequest_options_spec
    (HttpProbe.ofConfig
      { method := some "POST",
        headers := some [("Content-Type", "application/json")],
        body := some "\x7b\x7d" })
    "https://example.com"
    { url := "https://example.com",
      options :=
        { method := "POST",
          redirect := "follow",
          headers := some [("Content-Type", "application/json")],
          body := some "\x7b\x7d" } }
    rfl
  exact ⟨h.1, h.2.2.1⟩

/-- C7 counterexample: the outbound request's URL is the lower-cased target,
not the original-case string supplied by the caller. -/
theorem buildRequest_url_lowercased_cex :
    Except.map (fun r => r.url)
        (buildRequest (HttpProbe.ofConfig {}) "http://EXAMPLE.com/Path")
      = .ok "http://example.com/path"
  ∧ "http://example.com/path" ≠ "http://EXAMPLE.com/Path" :=
  ⟨rfl, by decide⟩

/-- C7 (amended): every successfully built request targets the lower-cased
normalization of the caller's target — the same string used for the scheme
and allow-list checks — not the original-case target. -/
theorem buildRequest_url_normalized (probe : HttpProbe) (target : String)
    (req : BuiltRequest) (h : buildRequest probe target = .ok req) :
    req.url = jsToLowerCase target := by
  simp only [buildRequest] at h
  split at h
  · simp at h
  · split at h
    · simp at h
    · split at h
      · simp at h
      · injection h with h; subst h; rfl

/-- Witness for C7's amended theorem at a mixed-case target. -/
theorem buildRequest_url_normalized_w :
    ({ url := "http://example.com/path",
       options :=
         { method := "GET",
           redirect := "follow",
           headers := some [],
           body := none } } : BuiltRequest).url
      = jsToLowerCase "http://EXAMPLE.com/Path" :=
  buildRequest_url_normalized (HttpProbe.ofConfig {}) "http://EXAMPLE.com/Path" _ rfl

/-- C8 counterexample: a present but unparsable content-length header yields
NaN (what parseInt returns), not the −1 sentinel the claim requires; the full
probe outcome carries NaN through to rendering. -/
theorem responseContentLength_unparsable_cex :
    responseContentLength
        { status := 200, redirected := false,
          headers := [("content-length", "abc")], bodyText := "ok" }
      = .nan
  ∧ JsNum.nan ≠ JsNum.int (-1)
  ∧ doProbe {} "http://example.com"
        (.ok { status := 200,
               redirected := false,
               headers := [("content-length", "abc")],
               bodyText := "ok" }) 0 0
      = .response (buildResponse
          { probe_success := true
            probe_duration_seconds := .mdiv 0
            probe_http_status_code := .int 200
            probe_http_redirected := false
            probe_http_content_length := .nan }) :=
  ⟨rfl, by decide, rfl⟩

/-- C8 (amended): the content-length field is parseInt of the header value:
−1 exactly when the header is absent or empty (the `|| '-1'` fallback), the
parsed integer when the header parses, and NaN — not −1 — when the header is
present but unparsable. -/
theorem responseContentLength_spec (resp : Response) :
    (headersGet resp.headers "content-length" = none →
        responseContentLength resp = .int (-1))
  ∧ (headersGet resp.headers "content-length" = some "" →
        responseContentLength resp = .int (-1))
  ∧ (∀ hv : String, headersGet resp.headers "content-length" = some hv → hv ≠ "" →
        responseContentLength resp = jsParseInt hv)
  ∧ jsParseInt "-1" = .int (-1)
  ∧ jsParseInt "abc" = .nan
  ∧ jsParseInt "512" = .int 512 := by
  refine ⟨fun h => ?_, fun h => ?_, fun hv h hne => ?_, by decide, rfl, by decide⟩
  · simp only [responseContentLength, h, jsOrString]; rfl
  · simp only [responseContentLength, h, jsOrString, if_pos]; rfl
  · simp only [responseContentLength, h, jsOrString, if_neg hne]

/-- Witness for C8's amended theorem: absent header gives −1, a numeric
header gives its value. -/
theorem responseContentLength_spec_w :
    responseContentLength
      { status := 200, redirected := false, headers := [], bodyText := "" }
      = .int (-1)
  ∧ responseContentLength
      { status := 200,
        redirected := false,
        headers := [("content-length", "512")],
        bodyText := "" }
      = jsParseInt "512" :=
  ⟨(responseContentLength_spec _).1 rfl,
   (responseContentLength_spec _).2.2.1 "512" rfl (by decide)⟩

theorem bool_eq_false_of_not_true {b : Bool} (h : ¬(b = true)) : b = false := by
  cases b with
  | true => exact absurd rfl h
  | false => rfl

/-- C4: buildRequest validates in a fixed order, first failing rule wins:
BodyNotAllowed exactly when the body is non-empty and the method is GET or
HEAD; otherwise InvalidTargetScheme exactly when the lower-cased target starts
with neither http:// nor https://; otherwise TargetNotAllowed exactly when the
allow list is non-empty and the lower-cased target neither equals a literal
entry nor is matched by a pattern entry; otherwise construction succeeds (in
particular, an empty allow list imposes no restriction). -/
theorem buildRequest_validation_order (probe : HttpProbe) (target : String) :
    (buildRequest probe target = .error "body is not allowed for GET or HEAD request"
      ↔ (probe.body ≠ "" ∧ (probe.method = "GET" ∨ probe.method = "HEAD")))
  ∧ (buildRequest probe target
        = .error ("target must start with either http:// or https://: "
            ++ jsToLowerCase target)
      ↔ (¬(probe.body ≠ "" ∧ (probe.method = "GET" ∨ probe.method = "HEAD"))
          ∧ ¬(jsStartsWith (jsToLowerCase target) "http://" = true
              ∨ jsStartsWith (jsToLowerCase target) "https://" = true)))
  ∧ (buildRequest probe target
        = .error ("target is not allowed in probe config: " ++ jsToLowerCase target)
      ↔ (¬(probe.body ≠ "" ∧ (probe.method = "GET" ∨ probe.method = "HEAD"))
          ∧ (jsStartsWith (jsToLowerCase target) "http://" = true
              ∨ jsStartsWith (jsToLowerCase target) "https://" = true)
          ∧ probe.allowedTargets ≠ []
          ∧ ¬ ∃ e ∈ probe.allowedTargets, entryAccepts (jsToLowerCase target) e))
  ∧ ((buildRequest probe target).isOk = true
      ↔ (¬(probe.body ≠ "" ∧ (probe.method = "GET" ∨ probe.method = "HEAD"))
          ∧ (jsStartsWith (jsToLowerCase target) "http://" = true
              ∨ jsStartsWith (jsToLowerCase target) "https://" = true)
          ∧ (probe.allowedTargets = []
              ∨ ∃ e ∈ probe.allowedTargets, entryAccepts (jsToLowerCase target) e))) := by
  have hp1 : (probe.body != "" && (probe.method == "GET" || probe.method == "HEAD")) = true
      ↔ (probe.body ≠ "" ∧ (probe.method = "GET" ∨ probe.method = "HEAD")) := by
    simp
  have hp2 : (!(jsStartsWith (jsToLowerCase target) "http://")
        && !(jsStartsWith (jsToLowerCase target) "https://")) = true
      ↔ ¬(jsStartsWith (jsToLowerCase target) "http://" = true
          ∨ jsStartsWith (jsToLowerCase target) "https://" = true) := by
    simp [not_or]
  have hp3 : (!probe.allowedTargets.isEmpty
        && !(probe.allowedTargets.any (isEqualOrMatched (jsToLowerCase target)))) = true
      ↔ (probe.allowedTargets ≠ []
          ∧ ¬ ∃ e ∈ probe.allowedTargets, entryAccepts (jsToLowerCase target) e) := by
    simp [List.any_eq_true, entryAccepts_iff, List.isEmpty_iff]
  by_cases h1 : (probe.body != "" && (probe.method == "GET" || probe.method == "HEAD")) = true
  · have hb : buildRequest probe target
        = .error "body is not allowed for GET or HEAD request" := by
      simp [buildRequest, h1]
    refine ⟨?_, ?_, ?_, ?_⟩
    · rw [hb]; simp [hp1.mp h1]
    · rw [hb]; simp [msg_body_ne_scheme, hp1.mp h1]
    · rw [hb]; simp [msg_body_ne_allowed, hp1.mp h1]
    · rw [hb]; simp [Except.isOk, Except.toBool, hp1.mp h1]
  · have h1f := bool_eq_false_of_not_true h1
    have hP1 : ¬(probe.body ≠ "" ∧ (probe.method = "GET" ∨ probe.method = "HEAD")) :=
      fun hp => h1 (hp1.mpr hp)
    by_cases h2 : (!(jsStartsWith (jsToLowerCase target) "http://")
        && !(jsStartsWith (jsToLowerCase target) "https://")) = true
    · have hb : buildRequest probe target
          = .error ("target must start with either http:// or https://: "
              ++ jsToLowerCase target) := by
        simp [buildRequest, h1f, h2]
      have hP2bad := hp2.mp h2
      refine ⟨?_, ?_, ?_, ?_⟩
      · rw [hb]; simp [Ne.symm (msg_body_ne_scheme (jsToLowerCase target)), hP1]
      · rw [hb]; simp [hP1, hP2bad]
      · rw [hb]; simp [msg_scheme_ne_allowed, hP2bad]
      · rw [hb]; simp [Except.isOk, Except.toBool, hP2bad]
    · have h2f := bool_eq_false_of_not_true h2
      have hP2 : (jsStartsWith (jsToLowerCase target) "http://" = true
          ∨ jsStartsWith (jsToLowerCase target) "https://" = true) := by
        by_contra hq
        exact h2 (hp2.mpr hq)
      by_cases h3 : (!probe.allowedTargets.isEmpty
          && !(probe.allowedTargets.any (isEqualOrMatched (jsToLowerCase target)))) = true
      · have hb : buildRequest probe target
            = .error ("target is not allowed in probe config: " ++ jsToLowerCase target) := by
          simp [buildRequest, h1f, h2f, h3]
        have hP3 := hp3.mp h3
        refine ⟨?_, ?_, ?_, ?_⟩
        · rw [hb]; simp [Ne.symm (msg_body_ne_allowed (jsToLowerCase target)), hP1]
        · rw [hb]
          simp [Ne.symm (msg_scheme_ne_allowed (jsToLowerCase target) (jsToLowerCase target)),
            hP2]
        · rw [hb]; simp [hP1, hP2, hP3.1, hP3.2]
        · rw [hb]; simp [Except.isOk, Except.toBool, hP3.1, hP3.2]
      · have h3f := bool_eq_false_of_not_true h3
        have hOk : (buildRequest probe target).isOk = true := by
          simp [buildRequest, h1f, h2f, h3f, Except.isOk, Except.toBool]
        have hP3 : (probe.allowedTargets = []
            ∨ ∃ e ∈ probe.allowedTargets, entryAccepts (jsToLowerCase target) e) := by
          by_contra hq
          exact h3 (hp3.mpr ⟨fun hnil => hq (Or.inl hnil), fun hex => hq (Or.inr hex)⟩)
        refine ⟨?_, ?_, ?_, ?_⟩
        · constructor
          · intro hEq; exact absurd hEq (isOk_ne_error _ hOk _)
          · intro hp; exact absurd hp hP1
        · constructor
          · intro hEq; exact absurd hEq (isOk_ne_error _ hOk _)
          · intro hp; exact absurd hP2 hp.2
        · constructor
          · intro hEq; exact absurd hEq (isOk_ne_error _ hOk _)
          · intro hp
            rcases hP3 with hnil | hex
            · exact (hp.2.2.1 hnil).elim
            · exact (hp.2.2.2 hex).elim
        · exact ⟨fun _ => ⟨hP1, hP2, hP3⟩, fun _ => hOk⟩

/-- Witness for C4: each of the three failures and a success, at concrete
configurations and targets. -/
theorem buildRequest_validation_order_w :
    buildRequest (HttpProbe.ofConfig { method := some "GET", body := some "x" })
        "http://example.com"
      = .error "body is not allowed for GET or HEAD request"
  ∧ buildRequest (HttpProbe.ofConfig {}) "example.com"
      = .error ("target must start with either http:// or https://: "
          ++ jsToLowerCase "example.com")
  ∧ buildRequest (HttpProbe.ofConfig { allowed_targets := some [.lit "https://example.com"] })
        "http://other.com"
      = .error ("target is not allowed in probe config: " ++ jsToLowerCase "http://other.com")
  ∧ (buildRequest (HttpProbe.ofConfig {}) "http://example.com").isOk = true :=
  ⟨(buildRequest_validation_order _ _).1.mpr (by decide),
   (buildRequest_validation_order _ _).2.1.mpr (by decide),
   (buildRequest_validation_order _ _).2.2.1.mpr (by decide),
   (buildRequest_validation_order _ _).2.2.2.mpr (by decide)⟩

end HttpProber
